import Mathlib

/-!
Verification of the task-manager store (src/task_manager_mcp.py).

The Python module keeps an in-memory table `tasks_db : dict[str, dict]`
(insertion-ordered) together with a counter `task_counter`, and persists both
as one JSON snapshot after every mutation.  We embed the store shallowly:

* the insertion-ordered dict becomes an association list `List (String × Task)`;
* timestamps (`datetime.now().isoformat()`) become abstract clock values `Nat`
  supplied as an argument to the operations that read the clock;
* the snapshot file becomes an `Option Snapshot` component of the state, and
  `save_tasks`  takes a boolean `ok` saying whether the durable write succeeds
  (the Python code swallows every exception of the write);
* the pydantic input models become structures, with their validators
  (`str_strip_whitespace`, `min_length`, `max_length`, `Literal` enums)
  embedded as `mk…Input` functions returning `Option`;
* each tool returns `Except String String`: `.error` for the early
  "not found" return of `get_task_or_error`, `.ok` for the normal return.
-/

namespace TaskManager

/-- The `Literal["low", "medium", "high"]` priority values. -/
inductive Priority
  | low
  | medium
  | high
deriving DecidableEq

/-- The two status strings a stored task can hold: "pending" and "completed". -/
inductive Status
  | pending
  | completed
deriving DecidableEq

/-- The `Literal["pending", "completed", "all"]` status-filter values of
`ListTasksInput.status`. -/
inductive StatusFilter
  | pending
  | completed
  | all
deriving DecidableEq

/-- The status string of a stored task, seen as a filter value, so that the
comparison `task["status"] == status` of `filter_tasks` can be written as an
equality test. -/
def Status.toFilter : Status → StatusFilter
  | .pending => .pending
  | .completed => .completed

/-- MAX_TITLE_LENGTH = 200 -/
def MAX_TITLE_LENGTH : Nat := 200

/-- MAX_DESCRIPTION_LENGTH = 1000 -/
def MAX_DESCRIPTION_LENGTH : Nat := 1000

/-- PRIORITY_ORDER = `{"high": 0, "medium": 1, "low": 2}` -/
def PRIORITY_ORDER : Priority → Nat
  | .high => 0
  | .medium => 1
  | .low => 2

/-- PRIORITY_EMOJI -/
def PRIORITY_EMOJI : Priority → String
  | .high => "🔴"
  | .medium => "🟡"
  | .low => "🟢"

/-- STATUS_EMOJI -/
def STATUS_EMOJI : Status → String
  | .completed => "✓"
  | .pending => "○"

/-- The string of a priority value, as interpolated into the messages. -/
def priorityStr : Priority → String
  | .low => "low"
  | .medium => "medium"
  | .high => "high"

/-- A stored task record: the dict built by `create_task`. -/
structure Task where
  id : String
  title : String
  description : String
  priority : Priority
  status : Status
  created_at : Nat
  completed_at : Option Nat
deriving DecidableEq

/-- The JSON snapshot written by `save_tasks`: the whole table and the counter. -/
structure Snapshot where
  tasks : List (String × Task)
  counter : Nat
deriving DecidableEq

/-- The process state: the globals `tasks_db` and `task_counter`, together with
the modelled snapshot file and a count of `save_tasks` invocations (so that
"triggers a persist" is observable). -/
structure State where
  tasks_db : List (String × Task)
  task_counter : Nat
  file : Option Snapshot
  saves : Nat
deriving DecidableEq

/-- The initial values of the globals: `tasks_db = {}`, `task_counter = 0`,
before `load_tasks()` runs at startup; no snapshot file yet, no save calls. -/
def initState : State := { tasks_db := [], task_counter := 0, file := none, saves := 0 }

/-- `load_tasks()`.  The disk argument models what the file system holds:
`none` = `STORAGE_FILE.exists()` is false (the globals keep their values);
`some none` = the file exists but reading or `json.load` raises (start fresh);
`some (some snap)` = the file exists and parses. -/
def load_tasks (disk : Option (Option Snapshot)) (s : State) : State :=
  match disk with
  | none => s
  | some none => { s with tasks_db := [], task_counter := 0 }
  | some (some snap) => { s with tasks_db := snap.tasks, task_counter := snap.counter }

/-- `save_tasks()`: always invoked (counted), writes the snapshot only when the
durable write succeeds (`ok`); on failure the exception is swallowed (`pass`). -/
def save_tasks (ok : Bool) (s : State) : State :=
  { s with
    saves := s.saves + 1,
    file := if ok then some { tasks := s.tasks_db, counter := s.task_counter } else s.file }

/-- `CreateTaskInput` after pydantic validation. -/
structure CreateTaskInput where
  title : String
  description : Option String
  priority : Priority
deriving DecidableEq

/-- Python's `str.strip()` as applied by `str_strip_whitespace=True`: drop
whitespace characters from both ends (written over the character list so that
it evaluates inside the kernel). -/
def stripStr (s : String) : String :=
  (((s.data.dropWhile Char.isWhitespace).reverse.dropWhile Char.isWhitespace).reverse).asString

/-- The pydantic validation of `CreateTaskInput`: every string field is
stripped (`str_strip_whitespace=True`); title has `min_length=1` and
`max_length=MAX_TITLE_LENGTH`; description has `max_length=MAX_DESCRIPTION_LENGTH`;
priority is a `Literal` defaulting to "medium". -/
def mkCreateTaskInput (title : String) (description : Option String)
    (priority : Option Priority) : Option CreateTaskInput :=
  let title := stripStr title
  let description := description.map stripStr
  if 1 ≤ title.length && title.length ≤ MAX_TITLE_LENGTH
      && description.all (fun d => d.length ≤ MAX_DESCRIPTION_LENGTH) then
    some { title := title, description := description, priority := priority.getD .medium }
  else
    none

/-- `UpdateTaskInput` after pydantic validation. -/
structure UpdateTaskInput where
  task_id : String
  title : Option String
  description : Option String
  priority : Option Priority
deriving DecidableEq

/-- The pydantic validation of `UpdateTaskInput`: every string field is
stripped; title has `max_length=MAX_TITLE_LENGTH` (and, unlike the create
model, no `min_length`); description has `max_length=MAX_DESCRIPTION_LENGTH`. -/
def mkUpdateTaskInput (task_id : String) (title description : Option String)
    (priority : Option Priority) : Option UpdateTaskInput :=
  let task_id := stripStr task_id
  let title := title.map stripStr
  let description := description.map stripStr
  if title.all (fun t => t.length ≤ MAX_TITLE_LENGTH)
      && description.all (fun d => d.length ≤ MAX_DESCRIPTION_LENGTH) then
    some { task_id := task_id, title := title, description := description, priority := priority }
  else
    none

/-- The message of `get_task_or_error` for a missing id. -/
def notFoundMsg (task_id : String) : String :=
  "✗ Task '" ++ task_id ++ "' not found"

/-- `get_task_or_error`: `(task, None)` or `(None, error_message)`. -/
def get_task_or_error (task_id : String) (s : State) : Option Task × Option String :=
  match s.tasks_db.lookup task_id with
  | none => (none, some (notFoundMsg task_id))
  | some t => (some t, none)

/-- Replacing the value held under a key of the dict (the Python code mutates
the looked-up task dict in place, so its position is preserved). -/
def setEntry (k : String) (v : Task) (tbl : List (String × Task)) : List (String × Task) :=
  tbl.map (fun e => if e.1 = k then (k, v) else e)

/-- `tasks_db[task_id] = task`: overwrite in place when the key is present,
append otherwise (dict insertion order). -/
def dictInsert (k : String) (v : Task) (tbl : List (String × Task)) : List (String × Task) :=
  if tbl.any (fun e => e.1 = k) then setEntry k v tbl else tbl ++ [(k, v)]

/-- The task dict built by `create_task`: status "pending", `created_at = now`,
`completed_at = None`, description defaulted to "" (`params.description or ""`,
which also maps an explicit empty string to ""). -/
def mkTask (task_id : String) (p : CreateTaskInput) (now : Nat) : Task :=
  { id := task_id
    title := p.title
    description := p.description.getD ""
    priority := p.priority
    status := .pending
    created_at := now
    completed_at := none }

/-- The id minted by the next create: `f"task-{task_counter}"` after the
increment. -/
def next_task_id (s : State) : String :=
  "task-" ++ Nat.repr (s.task_counter + 1)

/-- `create_task`. -/
def create_task (p : CreateTaskInput) (now : Nat) (ok : Bool) (s : State) :
    State × Except String String :=
  let task_id := next_task_id s
  let task := mkTask task_id p now
  let s' := save_tasks ok
    { s with task_counter := s.task_counter + 1, tasks_db := dictInsert task_id task s.tasks_db }
  (s', .ok ("✓ Created task " ++ task_id ++ ": " ++ task.title ++ " ("
      ++ PRIORITY_EMOJI task.priority ++ " " ++ priorityStr task.priority ++ ")"))

/-- `update_task`. -/
def update_task (p : UpdateTaskInput) (ok : Bool) (s : State) :
    State × Except String String :=
  match s.tasks_db.lookup p.task_id with
  | none => (s, .error (notFoundMsg p.task_id))
  | some task =>
    let task' : Task :=
      { task with
        title := p.title.getD task.title
        description := p.description.getD task.description
        priority := p.priority.getD task.priority }
    let updates : List String :=
      (match p.title with
       | some t => ["title → '" ++ t ++ "'"]
       | none => []) ++
      (match p.description with
       | some _ => ["description updated"]
       | none => []) ++
      (match p.priority with
       | some pr => ["priority → " ++ PRIORITY_EMOJI pr ++ " " ++ priorityStr pr]
       | none => [])
    let update_str := if updates.isEmpty then "no changes" else String.intercalate ", " updates
    let s' := save_tasks ok { s with tasks_db := setEntry p.task_id task' s.tasks_db }
    (s', .ok ("✓ Updated " ++ p.task_id ++ ": " ++ update_str))

/-- `complete_task`. -/
def complete_task (task_id : String) (now : Nat) (ok : Bool) (s : State) :
    State × Except String String :=
  match s.tasks_db.lookup task_id with
  | none => (s, .error (notFoundMsg task_id))
  | some task =>
    if task.status = .completed then
      (s, .ok ("✓ Task " ++ task_id ++ " already completed"))
    else
      let task' : Task := { task with status := .completed, completed_at := some now }
      let s' := save_tasks ok { s with tasks_db := setEntry task_id task' s.tasks_db }
      (s', .ok ("✓ Completed " ++ task_id ++ ": " ++ task'.title))

/-- `delete_task`: `del tasks_db[params.task_id]` removes the (single) entry
with the given key. -/
def delete_task (task_id : String) (ok : Bool) (s : State) :
    State × Except String String :=
  match s.tasks_db.lookup task_id with
  | none => (s, .error (notFoundMsg task_id))
  | some task =>
    let s' := save_tasks ok { s with tasks_db := s.tasks_db.eraseP (fun e => e.1 == task_id) }
    (s', .ok ("✗ Deleted " ++ task_id ++ ": " ++ task.title))

/-- `filter_tasks`: the list comprehension over `tasks_db.values()` with the
two filter conditions. -/
def filter_tasks (status : Option StatusFilter) (priority : Option Priority)
    (s : State) : List Task :=
  (s.tasks_db.map Prod.snd).filter fun task =>
    (status == some .all || some task.status.toFilter == status)
    && (priority.isNone || some task.priority == priority)

/-- The sort key of `list_tasks`: `(PRIORITY_ORDER[x["priority"]], x["created_at"])`. -/
def sortKey (t : Task) : Nat × Nat :=
  (PRIORITY_ORDER t.priority, t.created_at)

/-- Python tuple comparison of two sort keys (lexicographic, non-strict). -/
def sortKeyLe (a b : Task) : Bool :=
  decide ((sortKey a).1 < (sortKey b).1
    ∨ ((sortKey a).1 = (sortKey b).1 ∧ (sortKey a).2 ≤ (sortKey b).2))

/-- The task sequence produced by `list_tasks`: filter, then the stable sort
`filtered_tasks.sort(key=...)`. -/
def list_tasks (status : Option StatusFilter) (priority : Option Priority)
    (s : State) : List Task :=
  (filter_tasks status priority s).mergeSort sortKeyLe

/-- The markdown rendering of `list_tasks` (the non-empty branch). -/
def render_markdown (tasks : List Task) : String :=
  let lines := tasks.flatMap fun task =>
    [STATUS_EMOJI task.status ++ " [" ++ task.id ++ "] " ++ task.title ++ " ("
      ++ PRIORITY_EMOJI task.priority ++ " " ++ priorityStr task.priority ++ ")"]
    ++ (if task.description.isEmpty then [] else ["   " ++ task.description])
  "Tasks (" ++ Nat.repr tasks.length ++ " total)\n" ++ String.intercalate "\n" lines

/-- The full return value of `list_tasks` (markdown format): there is no error
return path; an empty filter result returns the ordinary message
"No tasks found.". -/
def list_tasks_result (status : Option StatusFilter) (priority : Option Priority)
    (s : State) : Except String String :=
  let filtered := filter_tasks status priority s
  if filtered.isEmpty then .ok "No tasks found."
  else .ok (render_markdown (filtered.mergeSort sortKeyLe))

/-- One mutating tool invocation. -/
inductive Op
  | create (p : CreateTaskInput) (now : Nat)
  | update (p : UpdateTaskInput)
  | complete (task_id : String) (now : Nat)
  | delete (task_id : String)

/-- Dispatch of one mutating tool invocation: `ok` says whether the durable
write of the triggered `save_tasks` succeeds. -/
def applyOp : Op → Bool → State → State × Except String String
  | .create p now, ok, s => create_task p now ok s
  | .update p, ok, s => update_task p ok s
  | .complete tid now, ok, s => complete_task tid now ok s
  | .delete tid, ok, s => delete_task tid ok s

/-- A sequence of mutating tool invocations. -/
def applyOps (ops : List Op) (ok : Bool) (s : State) : State :=
  ops.foldl (fun s op => (applyOp op ok s).1) s

/-! ### Decimal representation: `Nat.repr` is injective

`create_task` mints ids with `f"task-{task_counter}"`; non-reuse of ids
ultimately rests on distinct counter values yielding distinct id strings, i.e.
on injectivity of the decimal rendering. We prove it by interpreting the digit
characters back into a number. -/

/-- Numeric value of a decimal digit character. -/
def digitVal (c : Char) : Nat := c.toNat - 48

/-- Value of a digit-character string, most significant digit first, folded
onto an accumulator. -/
def interpDigits (acc : Nat) : List Char → Nat
  | [] => acc
  | c :: cs => interpDigits (acc * 10 + digitVal c) cs

theorem interpDigits_nil (acc : Nat) : interpDigits acc [] = acc := rfl

theorem interpDigits_cons (acc : Nat) (c : Char) (cs : List Char) :
    interpDigits acc (c :: cs) = interpDigits (acc * 10 + digitVal c) cs := rfl

theorem digitVal_digitChar : ∀ d, d < 10 → digitVal (Nat.digitChar d) = d := by decide

theorem interpDigits_toDigitsCore :
    ∀ (fuel n : Nat) (ds : List Char) (acc : Nat), n < fuel →
    ∃ k, interpDigits acc (Nat.toDigitsCore 10 fuel n ds)
      = interpDigits (acc * 10 ^ k + n) ds := by
  intro fuel
  induction fuel with
  | zero => intro n ds acc h; exact absurd h (Nat.not_lt_zero n)
  | succ fuel ih =>
    intro n ds acc h
    have hunfold : Nat.toDigitsCore 10 (fuel + 1) n ds
        = if n / 10 = 0 then Nat.digitChar (n % 10) :: ds
          else Nat.toDigitsCore 10 fuel (n / 10) (Nat.digitChar (n % 10) :: ds) := by
      conv => lhs; rw [Nat.toDigitsCore]
    have hmod : n % 10 < 10 := by omega
    by_cases h0 : n / 10 = 0
    · refine ⟨1, ?_⟩
      have hn : n < 10 := by omega
      rw [hunfold, if_pos h0, interpDigits_cons, digitVal_digitChar _ hmod,
        Nat.mod_eq_of_lt hn, pow_one]
    · have h2 : n / 10 < fuel := by
        have hlt : n / 10 < n := Nat.div_lt_self (by omega) (by omega)
        omega
      obtain ⟨k, hk⟩ := ih (n / 10) (Nat.digitChar (n % 10) :: ds) acc h2
      refine ⟨k + 1, ?_⟩
      rw [hunfold, if_neg h0, hk, interpDigits_cons, digitVal_digitChar _ hmod]
      congr 1
      rw [pow_succ, ← Nat.mul_assoc]
      generalize acc * 10 ^ k = X
      omega

theorem interpDigits_toDigits (n : Nat) : interpDigits 0 (Nat.toDigits 10 n) = n := by
  obtain ⟨k, hk⟩ := interpDigits_toDigitsCore (n + 1) n [] 0 (Nat.lt_succ_self n)
  simpa [interpDigits_nil] using hk

theorem toDigits_injective (a b : Nat) (h : Nat.toDigits 10 a = Nat.toDigits 10 b) :
    a = b := by
  calc a = interpDigits 0 (Nat.toDigits 10 a) := (interpDigits_toDigits a).symm
    _ = interpDigits 0 (Nat.toDigits 10 b) := by rw [h]
    _ = b := interpDigits_toDigits b

theorem nat_repr_injective (a b : Nat) (h : Nat.repr a = Nat.repr b) : a = b :=
  toDigits_injective a b (congrArg String.data h)

theorem task_id_ne_of_ne {a b : Nat} (h : a ≠ b) :
    "task-" ++ Nat.repr a ≠ "task-" ++ Nat.repr b := by
  intro he
  apply h
  apply toDigits_injective
  have hdata : "task-".data ++ (Nat.repr a).data = "task-".data ++ (Nat.repr b).data := by
    have := congrArg String.data he
    simpa [String.data_append] using this
  exact List.append_cancel_left hdata

/-! ### Association-list lemmas for the dict operations -/

theorem setEntry_cons (k : String) (v : Task) (k0 : String) (v0 : Task)
    (rest : List (String × Task)) :
    setEntry k v ((k0, v0) :: rest)
      = (if k0 = k then (k, v) else (k0, v0)) :: setEntry k v rest := rfl

theorem lookup_setEntry_self {tbl : List (String × Task)} {k : String} {v w : Task}
    (h : tbl.lookup k = some w) : (setEntry k v tbl).lookup k = some v := by
  induction tbl with
  | nil => simp at h
  | cons e rest ih =>
    obtain ⟨k0, v0⟩ := e
    rw [setEntry_cons]
    by_cases he : k0 = k
    · rw [if_pos he]
      simp
    · rw [if_neg he]
      rw [List.lookup_cons] at h ⊢
      have hbeq : (k == k0) = false := by simp [Ne.symm he]
      rw [hbeq] at h ⊢
      exact ih h

theorem lookup_setEntry_ne {tbl : List (String × Task)} {k k' : String} {v : Task}
    (h : k' ≠ k) : (setEntry k v tbl).lookup k' = tbl.lookup k' := by
  induction tbl with
  | nil => simp [setEntry]
  | cons e rest ih =>
    obtain ⟨k0, v0⟩ := e
    rw [setEntry_cons]
    by_cases he : k0 = k
    · rw [if_pos he]
      rw [List.lookup_cons, List.lookup_cons]
      have h1 : (k' == k) = false := by simp [h]
      have h2 : (k' == k0) = false := by simp [he ▸ h]
      rw [h1, h2]
      exact ih
    · rw [if_neg he]
      rw [List.lookup_cons, List.lookup_cons]
      cases hbeq : k' == k0 with
      | true => rfl
      | false => exact ih

theorem keys_setEntry (k : String) (v : Task) (tbl : List (String × Task)) :
    (setEntry k v tbl).map Prod.fst = tbl.map Prod.fst := by
  induction tbl with
  | nil => rfl
  | cons e rest ih =>
    obtain ⟨k0, v0⟩ := e
    rw [setEntry_cons]
    by_cases he : k0 = k
    · rw [if_pos he]
      simp only [List.map, ih]
      rw [he]
    · rw [if_neg he]
      simp only [List.map, ih]

theorem setEntry_not_mem {tbl : List (String × Task)} {k : String} {v : Task}
    (h : ∀ e ∈ tbl, e.1 ≠ k) : setEntry k v tbl = tbl := by
  induction tbl with
  | nil => rfl
  | cons e rest ih =>
    obtain ⟨k0, v0⟩ := e
    rw [setEntry_cons]
    have h1 : k0 ≠ k := h (k0, v0) (List.mem_cons_self _ _)
    rw [if_neg h1, ih (fun e' he' => h e' (List.mem_cons_of_mem _ he'))]

theorem setEntry_lookup_self {tbl : List (String × Task)} {k : String} {v : Task}
    (h : tbl.lookup k = some v) (hnd : (tbl.map Prod.fst).Nodup) :
    setEntry k v tbl = tbl := by
  induction tbl with
  | nil => simp at h
  | cons e rest ih =>
    obtain ⟨k0, v0⟩ := e
    simp only [List.map, List.nodup_cons] at hnd
    rw [setEntry_cons]
    by_cases he : k0 = k
    · rw [if_pos he]
      rw [List.lookup_cons] at h
      have hbeq : (k == k0) = true := by simp [he]
      rw [hbeq] at h
      have hv : v = v0 := by
        injection h with h'
        exact h'.symm
      have hrest : setEntry k v rest = rest := by
        apply setEntry_not_mem
        intro e' he' hk
        exact hnd.1 (he ▸ hk ▸ List.mem_map_of_mem Prod.fst he')
      rw [hrest, he, hv]
    · rw [if_neg he]
      rw [List.lookup_cons] at h
      have hbeq : (k == k0) = false := by simp [Ne.symm he]
      rw [hbeq] at h
      rw [ih h hnd.2]

/-! ### Small facts about the operations -/

theorem sortKeyLe_trans : ∀ a b c : Task, sortKeyLe a b → sortKeyLe b c → sortKeyLe a c := by
  intro a b c hab hbc
  simp only [sortKeyLe, decide_eq_true_eq] at *
  omega

theorem sortKeyLe_total : ∀ a b : Task, sortKeyLe a b || sortKeyLe b a := by
  intro a b
  simp only [sortKeyLe, Bool.or_eq_true, decide_eq_true_eq]
  omega

theorem delete_task_counter (tid : String) (ok : Bool) (s : State) :
    (delete_task tid ok s).1.task_counter = s.task_counter := by
  cases hl : s.tasks_db.lookup tid <;> simp [delete_task, hl, save_tasks]

theorem update_task_counter (p : UpdateTaskInput) (ok : Bool) (s : State) :
    (update_task p ok s).1.task_counter = s.task_counter := by
  cases hl : s.tasks_db.lookup p.task_id <;> simp [update_task, hl, save_tasks]

theorem complete_task_counter (tid : String) (now : Nat) (ok : Bool) (s : State) :
    (complete_task tid now ok s).1.task_counter = s.task_counter := by
  cases hl : s.tasks_db.lookup tid with
  | none => simp [complete_task, hl]
  | some task =>
    by_cases hst : task.status = .completed <;>
      simp [complete_task, hl, hst, save_tasks]

theorem applyOp_counter_le (op : Op) (ok : Bool) (s : State) :
    s.task_counter ≤ (applyOp op ok s).1.task_counter := by
  cases op with
  | create p now => simp [applyOp, create_task, save_tasks]
  | update p => simp [applyOp, update_task_counter]
  | complete tid now => simp [applyOp, complete_task_counter]
  | delete tid => simp [applyOp, delete_task_counter]

theorem applyOps_create_counter (cs : List (CreateTaskInput × Nat)) (ok : Bool) (s : State) :
    (applyOps (cs.map fun c => Op.create c.1 c.2) ok s).task_counter
      = s.task_counter + cs.length := by
  induction cs generalizing s with
  | nil => simp [applyOps]
  | cons c cs ih =>
    simp only [List.map, applyOps, List.foldl_cons] at ih ⊢
    rw [ih]
    simp [applyOp, create_task, save_tasks]
    omega

theorem applyOps_delete_counter (ds : List String) (ok : Bool) (s : State) :
    (applyOps (ds.map Op.delete) ok s).task_counter = s.task_counter := by
  induction ds generalizing s with
  | nil => simp [applyOps]
  | cons d ds ih =>
    simp only [List.map, applyOps, List.foldl_cons] at ih ⊢
    rw [ih]
    simp [applyOp, delete_task_counter]

/-! ### Demonstration states used by concrete witnesses -/

/-- A valid create input (its title survives the boundary validation). -/
def demoCreateInput : CreateTaskInput :=
  { title := "Fix bug", description := none, priority := .high }

/-- The store after one create from a fresh state: it holds exactly "task-1". -/
def demoState : State := (create_task demoCreateInput 0 true initState).1

/-! ### The claims -/

/-- C1: the claim fails on the code.  The spec requires every stored title to
have (trimmed) length between 1 and 200, and `CreateTaskInput` does enforce
`min_length=1`; but `UpdateTaskInput.title` has only `max_length`, so the
boundary accepts a blank title, strips it to the empty string, and
`update_task` stores it: afterwards the store holds a task whose title has
length 0. -/
def blankTitleUpdate : UpdateTaskInput :=
  { task_id := "task-1", title := some "", description := none, priority := none }

theorem c1_update_stores_empty_title :
    mkUpdateTaskInput "task-1" (some "   ") none none = some blankTitleUpdate
    ∧ (((update_task blankTitleUpdate true demoState).1.tasks_db.lookup "task-1").map
        (fun t => t.title.length)) = some 0
    ∧ mkCreateTaskInput "   " none none = none := by
  refine ⟨by decide, by decide, by decide⟩

/-- C2: `list(s, p)` returns exactly the stored tasks matching the status
filter (`status == s` or `s == all`) and the priority filter (`priority == p`
or `p` unset), and its result — the empty one included — is a non-error
outcome. -/
theorem c2_filter_correctness (fs : StatusFilter) (fp : Option Priority) (s : State)
    (t : Task) :
    (t ∈ list_tasks (some fs) fp s ↔
      t ∈ s.tasks_db.map Prod.snd
        ∧ (t.status.toFilter = fs ∨ fs = StatusFilter.all)
        ∧ (fp = none ∨ fp = some t.priority))
    ∧ (list_tasks_result (some fs) fp s).isOk = true := by
  constructor
  · rw [list_tasks, List.mem_mergeSort, filter_tasks, List.mem_filter]
    constructor
    · rintro ⟨hmem, hcond⟩
      simp only [Bool.and_eq_true, Bool.or_eq_true, beq_iff_eq, Option.isNone_iff_eq_none,
        Option.some.injEq] at hcond
      exact ⟨hmem, Or.symm hcond.1, hcond.2.imp id Eq.symm⟩
    · rintro ⟨hmem, h1, h2⟩
      refine ⟨hmem, ?_⟩
      simp only [Bool.and_eq_true, Bool.or_eq_true, beq_iff_eq, Option.isNone_iff_eq_none,
        Option.some.injEq]
      exact ⟨Or.symm h1, h2.imp id Eq.symm⟩
  · rw [list_tasks_result]
    by_cases he : (filter_tasks (some fs) fp s).isEmpty <;> simp [he, Except.isOk, Except.toBool]

/-- C3: the sequence returned by `list` is a permutation of the filtered tasks
(which keep the store's insertion order), is sorted by the lexicographic key
(priority rank ascending, then created_at ascending), and the sort is stable:
any two filtered tasks already in key order — ties included — stay in their
insertion order. -/
theorem c3_sort_order (fs : Option StatusFilter) (fp : Option Priority) (s : State) :
    (list_tasks fs fp s).Perm (filter_tasks fs fp s)
    ∧ (filter_tasks fs fp s).Sublist (s.tasks_db.map Prod.snd)
    ∧ (list_tasks fs fp s).Pairwise (fun a b => sortKeyLe a b = true)
    ∧ ∀ a b : Task, [a, b].Sublist (filter_tasks fs fp s) → sortKeyLe a b = true →
        [a, b].Sublist (list_tasks fs fp s) := by
  refine ⟨List.mergeSort_perm _ _, List.filter_sublist _, ?_, ?_⟩
  · exact List.sorted_mergeSort (fun a b c => sortKeyLe_trans a b c)
      (fun a b => sortKeyLe_total a b) _
  · intro a b hsub hle
    exact List.pair_sublist_mergeSort (fun a b c => sortKeyLe_trans a b c)
      (fun a b => sortKeyLe_total a b) hle hsub

/-- C3 witness: a store with two tasks of equal priority and equal creation
time; they are tied in the sort key and `list` keeps their insertion order. -/
def c3wInputA : CreateTaskInput := { title := "A", description := none, priority := .medium }

/-- Second create input of the C3 witness store. -/
def c3wInputB : CreateTaskInput := { title := "B", description := none, priority := .medium }

/-- The C3 witness store: "task-1" and "task-2", both medium, both created at 0. -/
def c3wState : State :=
  (create_task c3wInputB 0 true (create_task c3wInputA 0 true initState).1).1

/-- The first task of the C3 witness store. -/
def c3wA : Task := mkTask "task-1" c3wInputA 0

/-- The second task of the C3 witness store. -/
def c3wB : Task := mkTask "task-2" c3wInputB 0

theorem c3_sort_order_witness :
    [c3wA, c3wB].Sublist (filter_tasks (some .all) none c3wState)
    ∧ sortKeyLe c3wA c3wB = true
    ∧ [c3wA, c3wB].Sublist (list_tasks (some .all) none c3wState) := by
  have h1 : [c3wA, c3wB].Sublist (filter_tasks (some .all) none c3wState) := by decide
  have h2 : sortKeyLe c3wA c3wB = true := by decide
  exact ⟨h1, h2, (c3_sort_order (some .all) none c3wState).2.2.2 c3wA c3wB h1 h2⟩

/-- C4: completing a task twice is the same as completing it once: the second
call returns before any mutation or persist, so the state (hence the task's
status and completed_at) is identical, and after the first call the task is
completed. -/
theorem complete_task_already {tid : String} {now : Nat} {ok : Bool} {s : State} {task : Task}
    (hl : s.tasks_db.lookup tid = some task) (hc : task.status = Status.completed) :
    complete_task tid now ok s = (s, .ok ("✓ Task " ++ tid ++ " already completed")) := by
  simp [complete_task, hl, hc]

theorem c4_complete_idempotent (tid : String) (t1 t2 : Nat) (ok1 ok2 : Bool) (s : State)
    (h : (s.tasks_db.lookup tid).isSome = true) :
    (complete_task tid t2 ok2 (complete_task tid t1 ok1 s).1).1
      = (complete_task tid t1 ok1 s).1
    ∧ ((complete_task tid t1 ok1 s).1.tasks_db.lookup tid).map Task.status
        = some Status.completed := by
  cases hl : s.tasks_db.lookup tid with
  | none => rw [hl] at h; simp at h
  | some task =>
    by_cases hst : task.status = Status.completed
    · have hs1 : (complete_task tid t1 ok1 s).1 = s := by
        rw [complete_task_already hl hst]
      have hs2 : (complete_task tid t2 ok2 s).1 = s := by
        rw [complete_task_already hl hst]
      rw [hs1]
      exact ⟨hs2, by rw [hl]; simp [hst]⟩
    · have hdb : (complete_task tid t1 ok1 s).1.tasks_db
          = setEntry tid { task with status := .completed, completed_at := some t1 }
              s.tasks_db := by
        simp [complete_task, hl, hst, save_tasks]
      have hlook : (complete_task tid t1 ok1 s).1.tasks_db.lookup tid
          = some { task with status := .completed, completed_at := some t1 } := by
        rw [hdb]
        exact lookup_setEntry_self hl
      refine ⟨?_, by rw [hlook]; rfl⟩
      rw [complete_task_already hlook rfl]

theorem c4_complete_idempotent_witness :
    (demoState.tasks_db.lookup "task-1").isSome = true
    ∧ (complete_task "task-1" 9 false (complete_task "task-1" 7 true demoState).1).1
        = (complete_task "task-1" 7 true demoState).1 :=
  ⟨by decide, (c4_complete_idempotent "task-1" 7 9 true false demoState (by decide)).1⟩

/-- C5: ids are never reused: create allocates exactly the next counter value
as id `task-(counter+1)`, delete leaves the counter unchanged, no operation
ever decreases the counter, and after creating N tasks from a fresh store and
then deleting any set of ids the next id is `task-(N+1)`, distinct from every
previously minted id `task-k` (1 ≤ k ≤ N). -/
theorem c5_ids_never_reused :
    (∀ (p : CreateTaskInput) (now : Nat) (ok : Bool) (s : State),
      (create_task p now ok s).1.task_counter = s.task_counter + 1
      ∧ (create_task p now ok s).1.tasks_db
          = dictInsert (next_task_id s) (mkTask (next_task_id s) p now) s.tasks_db)
    ∧ (∀ (tid : String) (ok : Bool) (s : State),
        (delete_task tid ok s).1.task_counter = s.task_counter)
    ∧ (∀ (op : Op) (ok : Bool) (s : State),
        s.task_counter ≤ (applyOp op ok s).1.task_counter)
    ∧ (∀ (cs : List (CreateTaskInput × Nat)) (dels : List String) (ok : Bool),
        next_task_id (applyOps (dels.map Op.delete) ok
            (applyOps (cs.map fun c => Op.create c.1 c.2) ok initState))
          = "task-" ++ Nat.repr (cs.length + 1)
        ∧ ∀ k : Nat, 1 ≤ k → k ≤ cs.length →
            "task-" ++ Nat.repr (cs.length + 1) ≠ "task-" ++ Nat.repr k) := by
  refine ⟨fun p now ok s => ⟨rfl, rfl⟩, delete_task_counter, applyOp_counter_le, ?_⟩
  intro cs dels ok
  have hc : (applyOps (dels.map Op.delete) ok
      (applyOps (cs.map fun c => Op.create c.1 c.2) ok initState)).task_counter
        = cs.length := by
    rw [applyOps_delete_counter, applyOps_create_counter]
    simp [initState]
  constructor
  · rw [next_task_id, hc]
  · intro k h1 h2
    exact task_id_ne_of_ne (by omega)

theorem c5_ids_never_reused_witness :
    (1 ≤ 2 ∧ 2 ≤ ([(demoCreateInput, 0), (demoCreateInput, 1)]).length)
    ∧ "task-" ++ Nat.repr (([(demoCreateInput, 0), (demoCreateInput, 1)]).length + 1)
        ≠ "task-" ++ Nat.repr 2 :=
  ⟨⟨by decide, by decide⟩,
    (c5_ids_never_reused.2.2.2 [(demoCreateInput, 0), (demoCreateInput, 1)]
      ["task-1", "task-2"] true).2 2 (by decide) (by decide)⟩

/-- C6: update overwrites exactly the provided fields of the addressed task —
id, status, created_at, completed_at and every unprovided field keep their
values — every other task's entry is untouched, the counter is unchanged, and
the call succeeds. -/
theorem c6_partial_update_frame (p : UpdateTaskInput) (ok : Bool) (s : State) (task : Task)
    (h : s.tasks_db.lookup p.task_id = some task) :
    ((update_task p ok s).1.tasks_db.lookup p.task_id
      = some { task with
                title := p.title.getD task.title
                description := p.description.getD task.description
                priority := p.priority.getD task.priority })
    ∧ (∀ tid', tid' ≠ p.task_id →
        (update_task p ok s).1.tasks_db.lookup tid' = s.tasks_db.lookup tid')
    ∧ (update_task p ok s).1.task_counter = s.task_counter
    ∧ (update_task p ok s).2.isOk = true := by
  have hdb : (update_task p ok s).1.tasks_db
      = setEntry p.task_id
          { task with
              title := p.title.getD task.title
              description := p.description.getD task.description
              priority := p.priority.getD task.priority } s.tasks_db := by
    simp [update_task, h, save_tasks]
  refine ⟨?_, ?_, update_task_counter p ok s, ?_⟩
  · rw [hdb]
    exact lookup_setEntry_self h
  · intro tid' hne
    rw [hdb]
    exact lookup_setEntry_ne hne
  · simp [update_task, h, Except.isOk, Except.toBool]

def lowPriorityUpdate : UpdateTaskInput :=
  { task_id := "task-1", title := none, description := none, priority := some .low }

theorem c6_partial_update_frame_witness :
    demoState.tasks_db.lookup "task-1" = some (mkTask "task-1" demoCreateInput 0)
    ∧ ((update_task lowPriorityUpdate true demoState).1.tasks_db.lookup "task-1"
        = some { mkTask "task-1" demoCreateInput 0 with priority := Priority.low }) := by
  have h : demoState.tasks_db.lookup "task-1" = some (mkTask "task-1" demoCreateInput 0) := by
    decide
  refine ⟨h, ?_⟩
  have := (c6_partial_update_frame lowPriorityUpdate
    true demoState (mkTask "task-1" demoCreateInput 0) h).1
  simpa using this

/-- C7: on a missing id, update, complete and delete each return the NotFound
error message carrying the requested id and leave the whole state — table,
counter, snapshot file, save count — unchanged. -/
theorem c7_not_found_pure_error (tid : String) (title descr : Option String)
    (prio : Option Priority) (now : Nat) (ok : Bool) (s : State)
    (h : s.tasks_db.lookup tid = none) :
    update_task { task_id := tid, title := title, description := descr, priority := prio } ok s
      = (s, .error (notFoundMsg tid))
    ∧ complete_task tid now ok s = (s, .error (notFoundMsg tid))
    ∧ delete_task tid ok s = (s, .error (notFoundMsg tid))
    ∧ notFoundMsg tid = "✗ Task '" ++ tid ++ "' not found" := by
  refine ⟨?_, ?_, ?_, rfl⟩ <;> simp [update_task, complete_task, delete_task, h]

theorem c7_not_found_pure_error_witness :
    initState.tasks_db.lookup "task-42" = none
    ∧ complete_task "task-42" 0 true initState
        = (initState, .error (notFoundMsg "task-42")) :=
  ⟨rfl, (c7_not_found_pure_error "task-42" none none none 0 true initState rfl).2.1⟩

/-- C8: loading with the snapshot file absent, or with a file that fails to
parse, yields an empty table and counter 0 (a total, non-raising function),
and the store is usable: the next create yields exactly the task "task-1". -/
theorem c8_load_recovery (s : State) (p : CreateTaskInput) (now : Nat) (ok : Bool) :
    (load_tasks none initState).tasks_db = []
    ∧ (load_tasks none initState).task_counter = 0
    ∧ (load_tasks (some none) s).tasks_db = []
    ∧ (load_tasks (some none) s).task_counter = 0
    ∧ (create_task p now ok (load_tasks none initState)).1.tasks_db
        = [("task-1", mkTask "task-1" p now)]
    ∧ (create_task p now ok (load_tasks (some none) s)).1.tasks_db
        = [("task-1", mkTask "task-1" p now)] := by
  have hid : next_task_id (load_tasks none initState) = "task-1" := by decide
  have hid2 : ∀ s' : State, s'.task_counter = 0 → next_task_id s' = "task-1" := by
    intro s' h0
    rw [next_task_id, h0]
    decide
  refine ⟨rfl, rfl, rfl, rfl, ?_, ?_⟩
  · rw [show (create_task p now ok (load_tasks none initState)).1.tasks_db
        = dictInsert (next_task_id (load_tasks none initState))
            (mkTask (next_task_id (load_tasks none initState)) p now)
            (load_tasks none initState).tasks_db from rfl, hid]
    rfl
  · rw [show (create_task p now ok (load_tasks (some none) s)).1.tasks_db
        = dictInsert (next_task_id (load_tasks (some none) s))
            (mkTask (next_task_id (load_tasks (some none) s)) p now)
            (load_tasks (some none) s).tasks_db from rfl, hid2 _ rfl]
    rfl

/-- C9: when the durable write fails, every mutating operation keeps its
in-memory mutation and returns the very same result as with a successful
write: table, counter, save count and returned value do not depend on the
write's success (only the snapshot file does). -/
theorem c9_persist_failure_keeps_mutation (op : Op) (s : State) :
    (applyOp op false s).1.tasks_db = (applyOp op true s).1.tasks_db
    ∧ (applyOp op false s).1.task_counter = (applyOp op true s).1.task_counter
    ∧ (applyOp op false s).1.saves = (applyOp op true s).1.saves
    ∧ (applyOp op false s).2 = (applyOp op true s).2 := by
  cases op with
  | create p now => exact ⟨rfl, rfl, rfl, rfl⟩
  | update p =>
    cases hl : s.tasks_db.lookup p.task_id <;>
      simp [applyOp, update_task, hl, save_tasks]
  | complete tid now =>
    cases hl : s.tasks_db.lookup tid with
    | none => simp [applyOp, complete_task, hl]
    | some task =>
      by_cases hst : task.status = Status.completed <;>
        simp [applyOp, complete_task, hl, hst, save_tasks]
  | delete tid =>
    cases hl : s.tasks_db.lookup tid <;>
      simp [applyOp, delete_task, hl, save_tasks]

/-- C10: update with no optional field provided succeeds with the "no changes"
message, leaves the table (hence every attribute of every task) and the
counter unchanged, and still triggers a persist: the save count grows and, on
a successful write, the (unchanged) snapshot is written out. -/
def emptyUpdate (tid : String) : UpdateTaskInput :=
  { task_id := tid, title := none, description := none, priority := none }

theorem c10_empty_update_noop_persists (tid : String) (ok : Bool) (s : State) (task : Task)
    (h : s.tasks_db.lookup tid = some task)
    (hnd : (s.tasks_db.map Prod.fst).Nodup) :
    (update_task (emptyUpdate tid) ok s).1.tasks_db = s.tasks_db
    ∧ (update_task (emptyUpdate tid) ok s).1.task_counter = s.task_counter
    ∧ (update_task (emptyUpdate tid) ok s).1.saves = s.saves + 1
    ∧ (ok = true → (update_task (emptyUpdate tid) ok s).1.file
        = some { tasks := s.tasks_db, counter := s.task_counter })
    ∧ (update_task (emptyUpdate tid) ok s).2
        = .ok ("✓ Updated " ++ tid ++ ": " ++ "no changes") := by
  have hset : setEntry tid task s.tasks_db = s.tasks_db := setEntry_lookup_self h hnd
  refine ⟨?_, ?_, ?_, fun hok => ?_, ?_⟩
  · simp [update_task, emptyUpdate, h, save_tasks, Option.getD, hset]
  · simp [update_task, emptyUpdate, h, save_tasks, Option.getD, hset]
  · simp [update_task, emptyUpdate, h, save_tasks, Option.getD, hset]
  · subst hok
    simp [update_task, emptyUpdate, h, save_tasks, Option.getD, hset]
  · simp [update_task, emptyUpdate, h, save_tasks, Option.getD, hset]

theorem c10_empty_update_noop_persists_witness :
    demoState.tasks_db.lookup "task-1" = some (mkTask "task-1" demoCreateInput 0)
    ∧ (demoState.tasks_db.map Prod.fst).Nodup
    ∧ (update_task (emptyUpdate "task-1") true demoState).1.tasks_db
        = demoState.tasks_db := by
  have h : demoState.tasks_db.lookup "task-1" = some (mkTask "task-1" demoCreateInput 0) := by
    decide
  have hnd : (demoState.tasks_db.map Prod.fst).Nodup := by decide
  exact ⟨h, hnd,
    (c10_empty_update_noop_persists "task-1" true demoState (mkTask "task-1" demoCreateInput 0)
      h hnd).1⟩

end TaskManager
